import Mathlib

/-!
Shallow embedding of the `BackstageIt` test-lifecycle coordinator
(`src/index.ts`, `src/serverFactory.ts`, `src/types.ts`).

The coordinator holds process-wide mutable state (a server handle and a
database handle) and exposes `setUp`, `destroy`, `serverAddress` and
`serverPort`.  External collaborators (the database client constructor,
the migration runner, the caller-supplied server factory, the post-setup
callback, the database close operation) are modelled as pure functions
supplied through an `Extern` record and through the configuration itself;
every call into a collaborator is recorded as an event in a trace, so the
ordering and cardinality of external calls can be stated and proved.

JavaScript `undefined` is modelled with `Option`; a rejected promise and a
synchronously thrown error are both modelled with `Except Err`.  Accessing
a member of `undefined` (a `TypeError` in JavaScript, e.g.
`BackstageIt.server.close` when `setUp` never stored a server handle) is
the distinct error `Err.undefinedAccess`; the coordinator's own
`new Error("Test server not running")` is `Err.notRunning`; a rejection
coming from an external collaborator is `Err.external msg` and propagates
verbatim.
-/

namespace BackstageIt

/-- A winston logger as configured by `createLogger`: console transport,
default metadata `{service, platform}`, level `logLevel ?? "debug"`. -/
structure Logger where
  service : String
  platform : String
  level : String
deriving Repr, DecidableEq

/-- Models `BackstageIt.createLogger({service, platform, logLevel})`. -/
def createLogger (service platform : String) (logLevel : Option String) : Logger :=
  { service := service, platform := platform, level := logLevel.getD "debug" }

/-- An `http.Server` handle.  `sid` is the object's identity;
`boundAddr` models `server.address()`: `some port` while the server is
listening, `none` before listening and after `close` (in Node,
`address()` returns `null` then). -/
structure ServerHandle where
  sid : Nat
  boundAddr : Option Nat
deriving Repr, DecidableEq

/-- A knex database client handle, identified by `did`. -/
structure DbHandle where
  did : Nat
deriving Repr, DecidableEq

/-- Errors: `notRunning` is the coordinator's
`new Error("Test server not running")`; `undefinedAccess f` is the
JavaScript `TypeError` thrown when a member of the `undefined` static
field `f` is accessed; `external msg` is a rejection produced by an
external collaborator, carried verbatim. -/
inductive Err where
  | notRunning
  | undefinedAccess (field : String)
  | external (msg : String)
deriving Repr, DecidableEq

/-- The value `createStore` passes to `new ConfigReader(...)`: either the
hard-coded in-memory better-sqlite3 fallback, or the object read from
`config.get("backend.database")` (opaque, identified by a tag). -/
inductive DbConfig where
  | sqliteInMemory
  | fromBackendConfig (tag : Nat)
deriving Repr, DecidableEq

/-- An opaque `@backstage/config` `Config` object; the only operation the
coordinator performs on it is `get("backend.database")`, whose result is
the carried `backendDatabase`. -/
structure Cfg where
  backendDatabase : DbConfig
deriving Repr, DecidableEq

/-- The `database` field of `TestServerConfig`. -/
structure DbSpec where
  databaseName : String
  migrationsDir : String
deriving Repr, DecidableEq

/-- The options object passed to the caller-supplied server factory
(`ServerOptions` in `serverFactory.ts`). -/
structure ServerOptions where
  port : Nat
  enableCors : Bool
  logger : Logger
  optionalDatabase : Option DbHandle
  optionalConfig : Option Cfg
deriving Repr, DecidableEq

/-- The `ServerContext` handed to the `afterSetup` callback. -/
structure ServerContext where
  address : String
  port : Nat
  server : ServerHandle
  logger : Logger
  database : Option DbHandle
deriving Repr, DecidableEq

/-- The `TestServerConfig` from `serverFactory.ts`: all of `config`,
`logLevel`, `database`, `server` and `afterSetup` are optional.  The
caller-supplied `server` factory and `afterSetup` callback are embedded
as pure fallible functions. -/
structure TestServerConfig where
  appName : String
  platformName : String
  config : Option Cfg := none
  logLevel : Option String := none
  database : Option DbSpec := none
  server : Option (ServerOptions → Except Err ServerHandle) := none
  afterSetup : Option (ServerContext → Except Err Unit) := none

/-- External collaborators that are not part of the configuration:
`getClient` models `DatabaseManager.fromConfig(new ConfigReader(dbConfig))
.forPlugin(databaseName).getClient()`, `migrateLatest` models
`database.migrate.latest({directory})`, and `dbDestroy` models
`database.destroy()`. -/
structure Extern where
  getClient : DbConfig → String → Except Err DbHandle
  migrateLatest : DbHandle → String → Except Err Unit
  dbDestroy : DbHandle → Except Err Unit

/-- One external call made by the coordinator, recorded in order. -/
inductive Event where
  | getClientCall (dbConfig : DbConfig) (databaseName : String)
  | migrateCall (db : DbHandle) (directory : String)
  | createLoggerCall (logger : Logger)
  | serverFactoryCall (opts : ServerOptions)
  | afterSetupCall (ctx : ServerContext)
  | serverCloseCall (sid : Nat)
  | dbDestroyCall (db : DbHandle)
deriving Repr, DecidableEq

/-- The process-wide static fields `BackstageIt.server` and
`BackstageIt.database`; both start out `undefined`. -/
structure LifecycleState where
  server : Option ServerHandle := none
  database : Option DbHandle := none
deriving Repr, DecidableEq

/-- The state at process start: both static fields `undefined`. -/
def initialState : LifecycleState := {}

deriving instance DecidableEq for Except

/-- Result of running one coordinator operation: the lifecycle state
afterwards, the trace of external calls it made, and whether it resolved
(`.ok`) or rejected (`.error`). -/
structure RunResult where
  state : LifecycleState
  trace : List Event
  result : Except Err Unit
deriving Repr, DecidableEq

/-- Models `BackstageIt.serverPort()`: reads `BackstageIt.server.address()`.
When the static `server` field was never assigned the member access
itself throws (`undefinedAccess`); when the handle exists but no address
is bound it throws `new Error("Test server not running")`. -/
def serverPort (s : LifecycleState) : Except Err Nat :=
  match s.server with
  | none => .error (.undefinedAccess "server")
  | some h =>
    match h.boundAddr with
    | none => .error .notRunning
    | some p => .ok p

/-- Models `BackstageIt.serverAddress()`: `'http://127.0.0.1:' + port`. -/
def serverAddress (s : LifecycleState) : Except Err String :=
  (serverPort s).map (fun p => "http://127.0.0.1:" ++ toString p)

/-- The database config chosen inside `createStore`:
`config ? config.get("backend.database") : <in-memory sqlite fallback>`. -/
def databaseConfigOf (config : Option Cfg) : DbConfig :=
  match config with
  | some c => c.backendDatabase
  | none => .sqliteInMemory

/-- Models `BackstageIt.createStore({databaseName, migrationsDir, config})`:
obtain a client for the chosen database config and run the latest
migrations against `migrationsDir`; returns the trace of external calls
and the client (or the first rejection, verbatim). -/
def createStore (ext : Extern) (spec : DbSpec) (config : Option Cfg) :
    List Event × Except Err DbHandle :=
  let dbConfig := databaseConfigOf config
  match ext.getClient dbConfig spec.databaseName with
  | .error e => ([.getClientCall dbConfig spec.databaseName], .error e)
  | .ok db =>
    match ext.migrateLatest db spec.migrationsDir with
    | .error e =>
      ([.getClientCall dbConfig spec.databaseName, .migrateCall db spec.migrationsDir], .error e)
    | .ok _ =>
      ([.getClientCall dbConfig spec.databaseName, .migrateCall db spec.migrationsDir], .ok db)

/-- JavaScript `Number(s)` restricted to decimal-digit strings, the
domain the port override is specified to use ("numeric string, parsed to
an integer"). -/
def parseDec (s : String) : Nat :=
  s.toList.foldl (fun a c => a * 10 + (c.toNat - 48)) 0

/-- The port chosen in `setUp`:
`process.env.BACKSTAGE_IT_PORT ? Number(process.env.BACKSTAGE_IT_PORT) : 0`.
`env` is the value of the `BACKSTAGE_IT_PORT` environment variable. -/
def portOf (env : Option String) : Nat :=
  match env with
  | none => 0
  | some s => parseDec s

/-- The logger `setUp` builds for the server factory. -/
def loggerOf (cfg : TestServerConfig) : Logger :=
  createLogger cfg.appName cfg.platformName cfg.logLevel

/-- The options object `setUp` passes to the server factory; `dbNow` is
the value of the static `database` field at that moment.  Note
`optionalDatabase` is `BackstageIt.database` only when the *current*
configuration has a `database` field, else `undefined`. -/
def serverOptionsOf (env : Option String) (cfg : TestServerConfig)
    (dbNow : Option DbHandle) : ServerOptions :=
  { port := portOf env
    enableCors := false
    logger := loggerOf cfg
    optionalDatabase := if cfg.database.isSome then dbNow else none
    optionalConfig := cfg.config }

/-- The third stage of `setUp`: when an `afterSetup` callback is present,
build the `ServerContext` (calling `serverPort`/`serverAddress` on the
current state — these can throw) and invoke the callback.  `lg` is the
logger built in the server stage, `tr` the trace accumulated so far. -/
def afterStage (cfg : TestServerConfig) (lg : Logger) (s : LifecycleState)
    (tr : List Event) : RunResult :=
  match cfg.afterSetup with
  | none => ⟨s, tr, .ok ()⟩
  | some cb =>
    match s.server with
    | none => ⟨s, tr, .error (.undefinedAccess "server")⟩
    | some h =>
      match h.boundAddr with
      | none => ⟨s, tr, .error .notRunning⟩
      | some p =>
        let ctx : ServerContext :=
          { address := "http://127.0.0.1:" ++ toString p
            port := p
            server := h
            logger := lg
            database := s.database }
        match cb ctx with
        | .error e => ⟨s, tr ++ [.afterSetupCall ctx], .error e⟩
        | .ok _ => ⟨s, tr ++ [.afterSetupCall ctx], .ok ()⟩

/-- The second stage of `setUp`: when a `server` factory is present,
build the logger, choose the port, invoke the factory and store the
returned handle in the static `server` field, then run `afterStage`. -/
def serverStage (env : Option String) (cfg : TestServerConfig)
    (s : LifecycleState) (tr : List Event) : RunResult :=
  match cfg.server with
  | none => ⟨s, tr, .ok ()⟩
  | some factory =>
    let lg := loggerOf cfg
    let opts := serverOptionsOf env cfg s.database
    let tr := tr ++ [.createLoggerCall lg, .serverFactoryCall opts]
    match factory opts with
    | .error e => ⟨s, tr, .error e⟩
    | .ok h => afterStage cfg lg { s with server := some h } tr

/-- The first stage of `setUp`: when a database spec is present, run
`createStore` and store the returned client in the static `database`
field; a rejection leaves the field untouched. -/
def dbStage (ext : Extern) (cfg : TestServerConfig) (s : LifecycleState) :
    RunResult :=
  match cfg.database with
  | none => ⟨s, [], .ok ()⟩
  | some spec =>
    match (createStore ext spec cfg.config).2 with
    | .error e => ⟨s, (createStore ext spec cfg.config).1, .error e⟩
    | .ok db =>
      ⟨{ s with database := some db }, (createStore ext spec cfg.config).1, .ok ()⟩

/-- Models `BackstageIt.setUp(setUpConfig)`:
1. if a database spec is present, `createStore` and store the client in
   the static `database` field (a rejection propagates, verbatim);
2. if a server factory is present, build the logger, choose the port,
   invoke the factory and store the handle;
3. if an `afterSetup` callback is present (and a server factory was),
   build the `ServerContext` and invoke it.
`env` is the value of `BACKSTAGE_IT_PORT`. -/
def setUp (ext : Extern) (env : Option String) (cfg : TestServerConfig)
    (s : LifecycleState) : RunResult :=
  match (dbStage ext cfg s).result with
  | .ok _ => serverStage env cfg (dbStage ext cfg s).state (dbStage ext cfg s).trace
  | .error _ => dbStage ext cfg s

/-- Models `BackstageIt.destroy()`: await `server.close()` (the close callback
ignores any error, so this step only fails when the static `server` field
is `undefined`, with a `TypeError`), then, if the static `database` field
holds a handle, await `database.destroy()`.  Closing unbinds the server's
address; neither static field is reassigned. -/
def destroy (ext : Extern) (s : LifecycleState) : RunResult :=
  match s.server with
  | none => ⟨s, [], .error (.undefinedAccess "server")⟩
  | some h =>
    let s1 : LifecycleState := { s with server := some { h with boundAddr := none } }
    let tr := [Event.serverCloseCall h.sid]
    match s1.database with
    | none => ⟨s1, tr, .ok ()⟩
    | some db =>
      match ext.dbDestroy db with
      | .error e => ⟨s1, tr ++ [.dbDestroyCall db], .error e⟩
      | .ok _ => ⟨s1, tr ++ [.dbDestroyCall db], .ok ()⟩

/-- The stage of `setUp` an event belongs to (close/destroy events of
`destroy` come after all of them). -/
def stage : Event → Nat
  | .getClientCall _ _ => 0
  | .migrateCall _ _ => 1
  | .createLoggerCall _ => 2
  | .serverFactoryCall _ => 3
  | .afterSetupCall _ => 4
  | .serverCloseCall _ => 5
  | .dbDestroyCall _ => 6

/-! ### Concrete fixtures for witnesses and counterexamples -/

/-- A well-behaved external world: the database client constructor,
migration runner and database close all succeed. -/
def extOk : Extern :=
  { getClient := fun _ _ => .ok ⟨1⟩
    migrateLatest := fun _ _ => .ok ()
    dbDestroy := fun _ => .ok () }

/-- A server factory that starts and binds: when an ephemeral port is
requested (`port = 0`) the networking layer picks `ephemeral`, otherwise
the requested port is bound. -/
def okFactory (ephemeral : Nat) : ServerOptions → Except Err ServerHandle :=
  fun opts => .ok ⟨7, some (if opts.port = 0 then ephemeral else opts.port)⟩

/-- A configuration with a database spec, a server factory and an
`afterSetup` callback. -/
def cfgFull : TestServerConfig :=
  { appName := "svc"
    platformName := "backstage"
    database := some ⟨"svc-db", "migrations"⟩
    server := some (okFactory 43210)
    afterSetup := some (fun _ => .ok ()) }

/-- A configuration with a database spec but no `server` field. -/
def cfgDbOnly : TestServerConfig :=
  { appName := "svc"
    platformName := "backstage"
    database := some ⟨"svc-db", "migrations"⟩ }

/-- A configuration with a server factory but no `database` field. -/
def cfgServerOnly : TestServerConfig :=
  { appName := "svc"
    platformName := "backstage"
    server := some (okFactory 43210) }

/-- A configuration with an `afterSetup` callback but no `server`
factory (and no database). -/
def cfgAfterOnly : TestServerConfig :=
  { appName := "svc"
    platformName := "backstage"
    afterSetup := some (fun _ => .ok ()) }

/-! ### Case characterizations of the stages -/

/-- The `ServerContext` built for the `afterSetup` callback once the
bound port `p` has been read from handle `h`. -/
def mkCtx (p : Nat) (h : ServerHandle) (lg : Logger) (db : Option DbHandle) :
    ServerContext :=
  ⟨"http://127.0.0.1:" ++ toString p, p, h, lg, db⟩

theorem createStore_cases (ext : Extern) (spec : DbSpec) (config : Option Cfg) :
    (∃ e, ext.getClient (databaseConfigOf config) spec.databaseName = .error e ∧
      createStore ext spec config =
        ([.getClientCall (databaseConfigOf config) spec.databaseName], .error e)) ∨
    (∃ db, ext.getClient (databaseConfigOf config) spec.databaseName = .ok db ∧
      ((∃ e, ext.migrateLatest db spec.migrationsDir = .error e ∧
        createStore ext spec config =
          ([.getClientCall (databaseConfigOf config) spec.databaseName,
            .migrateCall db spec.migrationsDir], .error e)) ∨
       (ext.migrateLatest db spec.migrationsDir = .ok () ∧
        createStore ext spec config =
          ([.getClientCall (databaseConfigOf config) spec.databaseName,
            .migrateCall db spec.migrationsDir], .ok db)))) := by
  simp only [createStore]
  split
  · exact .inl ⟨_, by assumption, rfl⟩
  split
  · exact .inr ⟨_, by assumption, .inl ⟨_, by assumption, rfl⟩⟩
  · exact .inr ⟨_, by assumption, .inr ⟨by assumption, rfl⟩⟩

theorem dbStage_cases (ext : Extern) (cfg : TestServerConfig)
    (s : LifecycleState) :
    (cfg.database = none ∧ dbStage ext cfg s = ⟨s, [], .ok ()⟩) ∨
    (∃ spec, cfg.database = some spec ∧
      ((∃ e, (createStore ext spec cfg.config).2 = .error e ∧
        dbStage ext cfg s = ⟨s, (createStore ext spec cfg.config).1, .error e⟩) ∨
       (∃ db, (createStore ext spec cfg.config).2 = .ok db ∧
        dbStage ext cfg s =
          ⟨{ s with database := some db },
            (createStore ext spec cfg.config).1, .ok ()⟩))) := by
  simp only [dbStage]
  split
  · exact .inl ⟨by assumption, rfl⟩
  split
  · exact .inr ⟨_, by assumption, .inl ⟨_, by assumption, rfl⟩⟩
  · exact .inr ⟨_, by assumption, .inr ⟨_, by assumption, rfl⟩⟩

theorem afterStage_cases (cfg : TestServerConfig) (lg : Logger)
    (s : LifecycleState) (tr : List Event) :
    (cfg.afterSetup = none ∧ afterStage cfg lg s tr = ⟨s, tr, .ok ()⟩) ∨
    (∃ cb, cfg.afterSetup = some cb ∧
      ((s.server = none ∧
        afterStage cfg lg s tr = ⟨s, tr, .error (.undefinedAccess "server")⟩) ∨
       (∃ h, s.server = some h ∧
        ((h.boundAddr = none ∧
          afterStage cfg lg s tr = ⟨s, tr, .error .notRunning⟩) ∨
         (∃ p, h.boundAddr = some p ∧
          ((∃ e, cb (mkCtx p h lg s.database) = .error e ∧
            afterStage cfg lg s tr =
              ⟨s, tr ++ [.afterSetupCall (mkCtx p h lg s.database)], .error e⟩) ∨
           (cb (mkCtx p h lg s.database) = .ok () ∧
            afterStage cfg lg s tr =
              ⟨s, tr ++ [.afterSetupCall (mkCtx p h lg s.database)],
                .ok ()⟩))))))) := by
  simp only [afterStage]
  split
  · exact .inl ⟨by assumption, rfl⟩
  split
  · exact .inr ⟨_, by assumption, .inl ⟨by assumption, rfl⟩⟩
  split
  · exact .inr ⟨_, by assumption, .inr ⟨_, by assumption, .inl ⟨by assumption, rfl⟩⟩⟩
  split
  · exact .inr ⟨_, by assumption, .inr ⟨_, by assumption,
      .inr ⟨_, by assumption, .inl ⟨_, by assumption, rfl⟩⟩⟩⟩
  · exact .inr ⟨_, by assumption, .inr ⟨_, by assumption,
      .inr ⟨_, by assumption, .inr ⟨by assumption, rfl⟩⟩⟩⟩

theorem serverStage_cases (env : Option String) (cfg : TestServerConfig)
    (s : LifecycleState) (tr : List Event) :
    (cfg.server = none ∧ serverStage env cfg s tr = ⟨s, tr, .ok ()⟩) ∨
    (∃ f, cfg.server = some f ∧
      ((∃ e, f (serverOptionsOf env cfg s.database) = .error e ∧
        serverStage env cfg s tr =
          ⟨s, tr ++ [.createLoggerCall (loggerOf cfg),
            .serverFactoryCall (serverOptionsOf env cfg s.database)],
            .error e⟩) ∨
       (∃ h, f (serverOptionsOf env cfg s.database) = .ok h ∧
        serverStage env cfg s tr =
          afterStage cfg (loggerOf cfg) { s with server := some h }
            (tr ++ [.createLoggerCall (loggerOf cfg),
              .serverFactoryCall (serverOptionsOf env cfg s.database)])))) := by
  simp only [serverStage]
  split
  · exact .inl ⟨by assumption, rfl⟩
  split
  · exact .inr ⟨_, by assumption, .inl ⟨_, by assumption, rfl⟩⟩
  · exact .inr ⟨_, by assumption, .inr ⟨_, by assumption, rfl⟩⟩

theorem setUp_eq_of_db_ok (ext : Extern) (env : Option String)
    (cfg : TestServerConfig) (s : LifecycleState)
    (hdb : (dbStage ext cfg s).result = .ok ()) :
    setUp ext env cfg s =
      serverStage env cfg (dbStage ext cfg s).state (dbStage ext cfg s).trace := by
  unfold setUp
  rw [hdb]

theorem setUp_eq_of_db_error (ext : Extern) (env : Option String)
    (cfg : TestServerConfig) (s : LifecycleState) (e : Err)
    (hdb : (dbStage ext cfg s).result = .error e) :
    setUp ext env cfg s = dbStage ext cfg s := by
  unfold setUp
  rw [hdb]

theorem dbStage_db_none (ext : Extern) (cfg : TestServerConfig)
    (s : LifecycleState) (hdb : cfg.database = none) :
    dbStage ext cfg s = ⟨s, [], .ok ()⟩ := by
  simp [dbStage, hdb]

theorem serverStage_server_none (env : Option String) (cfg : TestServerConfig)
    (s : LifecycleState) (tr : List Event) (hsv : cfg.server = none) :
    serverStage env cfg s tr = ⟨s, tr, .ok ()⟩ := by
  simp [serverStage, hsv]

/-- Exhaustive characterization of a `setUp` run: the database stage
either rejects (and nothing further happens) or resolves, then the
server stage is skipped, rejects, or resolves, then the post-setup stage
is skipped, fails reading the port, or invokes the callback. -/
theorem setUp_cases (ext : Extern) (env : Option String)
    (cfg : TestServerConfig) (s : LifecycleState) :
    (∃ spec e, cfg.database = some spec ∧
      (createStore ext spec cfg.config).2 = .error e ∧
      setUp ext env cfg s = ⟨s, (createStore ext spec cfg.config).1, .error e⟩) ∨
    ((dbStage ext cfg s).result = .ok () ∧
     ((cfg.server = none ∧
       setUp ext env cfg s =
         ⟨(dbStage ext cfg s).state, (dbStage ext cfg s).trace, .ok ()⟩) ∨
      (∃ f, cfg.server = some f ∧
       ((∃ e,
          f (serverOptionsOf env cfg (dbStage ext cfg s).state.database) = .error e ∧
          setUp ext env cfg s =
            ⟨(dbStage ext cfg s).state,
             (dbStage ext cfg s).trace ++
               [.createLoggerCall (loggerOf cfg),
                .serverFactoryCall
                  (serverOptionsOf env cfg (dbStage ext cfg s).state.database)],
             .error e⟩) ∨
        (∃ h,
          f (serverOptionsOf env cfg (dbStage ext cfg s).state.database) = .ok h ∧
          ((cfg.afterSetup = none ∧
            setUp ext env cfg s =
              ⟨{ (dbStage ext cfg s).state with server := some h },
               (dbStage ext cfg s).trace ++
                 [.createLoggerCall (loggerOf cfg),
                  .serverFactoryCall
                    (serverOptionsOf env cfg (dbStage ext cfg s).state.database)],
               .ok ()⟩) ∨
           (∃ cb, cfg.afterSetup = some cb ∧
            ((h.boundAddr = none ∧
              setUp ext env cfg s =
                ⟨{ (dbStage ext cfg s).state with server := some h },
                 (dbStage ext cfg s).trace ++
                   [.createLoggerCall (loggerOf cfg),
                    .serverFactoryCall
                      (serverOptionsOf env cfg (dbStage ext cfg s).state.database)],
                 .error .notRunning⟩) ∨
             (∃ p, h.boundAddr = some p ∧
              ((∃ e,
                 cb (mkCtx p h (loggerOf cfg) (dbStage ext cfg s).state.database)
                   = .error e ∧
                 setUp ext env cfg s =
                   ⟨{ (dbStage ext cfg s).state with server := some h },
                    (dbStage ext cfg s).trace ++
                      [.createLoggerCall (loggerOf cfg),
                       .serverFactoryCall
                         (serverOptionsOf env cfg (dbStage ext cfg s).state.database),
                       .afterSetupCall
                         (mkCtx p h (loggerOf cfg)
                           (dbStage ext cfg s).state.database)],
                    .error e⟩) ∨
               (cb (mkCtx p h (loggerOf cfg) (dbStage ext cfg s).state.database)
                   = .ok () ∧
                setUp ext env cfg s =
                  ⟨{ (dbStage ext cfg s).state with server := some h },
                   (dbStage ext cfg s).trace ++
                     [.createLoggerCall (loggerOf cfg),
                      .serverFactoryCall
                        (serverOptionsOf env cfg (dbStage ext cfg s).state.database),
                      .afterSetupCall
                        (mkCtx p h (loggerOf cfg)
                          (dbStage ext cfg s).state.database)],
                   .ok ()⟩))))))))))) := by
  cases hr : (dbStage ext cfg s).result with
  | error e =>
    rcases dbStage_cases ext cfg s with ⟨_, h0⟩ | ⟨spec, hdbs, ⟨e', hcs, h0⟩ | ⟨db, hcs, h0⟩⟩
    · rw [h0] at hr; cases hr
    · exact .inl ⟨spec, e', hdbs, hcs, by
        rw [setUp_eq_of_db_error ext env cfg s e' (by rw [h0]), h0]⟩
    · rw [h0] at hr; cases hr
  | ok u =>
    cases u
    have hok : (dbStage ext cfg s).result = .ok () := hr
    refine .inr ⟨rfl, ?_⟩
    rw [setUp_eq_of_db_ok ext env cfg s hok]
    rcases serverStage_cases env cfg (dbStage ext cfg s).state
        (dbStage ext cfg s).trace with
      ⟨hsvn, hs⟩ | ⟨f, hsv, ⟨e, hfe, hs⟩ | ⟨h, hfo, hs⟩⟩
    · exact .inl ⟨hsvn, by rw [hs]⟩
    · exact .inr ⟨f, hsv, .inl ⟨e, hfe, by rw [hs]⟩⟩
    · refine .inr ⟨f, hsv, .inr ⟨h, hfo, ?_⟩⟩
      rw [hs]
      rcases afterStage_cases cfg (loggerOf cfg)
          { (dbStage ext cfg s).state with server := some h }
          ((dbStage ext cfg s).trace ++
            [.createLoggerCall (loggerOf cfg),
             .serverFactoryCall
               (serverOptionsOf env cfg (dbStage ext cfg s).state.database)]) with
        ⟨hafn, ha⟩ | ⟨cb, haf, ⟨habs, ha⟩ |
          ⟨h', hsome, ⟨hbn, ha⟩ | ⟨p, hbp, ⟨e, hcbe, ha⟩ | ⟨hcbo, ha⟩⟩⟩⟩
      · exact .inl ⟨hafn, by rw [ha]⟩
      · simp at habs
      · simp only [Option.some.injEq] at hsome
        subst hsome
        exact .inr ⟨cb, haf, .inl ⟨hbn, by rw [ha]⟩⟩
      · simp only [Option.some.injEq] at hsome
        subst hsome
        exact .inr ⟨cb, haf, .inr ⟨p, hbp, .inl ⟨e, hcbe, by
          rw [ha]; simp⟩⟩⟩
      · simp only [Option.some.injEq] at hsome
        subst hsome
        exact .inr ⟨cb, haf, .inr ⟨p, hbp, .inr ⟨hcbo, by
          rw [ha]; simp⟩⟩⟩

/-- A database stage that resolved either had no database spec or stored
the client obtained from a successful `createStore`. -/
theorem dbStage_ok_cases (ext : Extern) (cfg : TestServerConfig)
    (s : LifecycleState) (h : (dbStage ext cfg s).result = .ok ()) :
    (cfg.database = none ∧ dbStage ext cfg s = ⟨s, [], .ok ()⟩) ∨
    (∃ spec db, cfg.database = some spec ∧
      ext.getClient (databaseConfigOf cfg.config) spec.databaseName = .ok db ∧
      ext.migrateLatest db spec.migrationsDir = .ok () ∧
      (createStore ext spec cfg.config).2 = .ok db ∧
      dbStage ext cfg s =
        ⟨{ s with database := some db },
         [.getClientCall (databaseConfigOf cfg.config) spec.databaseName,
          .migrateCall db spec.migrationsDir], .ok ()⟩) := by
  rcases dbStage_cases ext cfg s with ⟨hdbn, h0⟩ |
    ⟨spec, hdbs, ⟨e, hcs, h0⟩ | ⟨db, hcs, h0⟩⟩
  · exact .inl ⟨hdbn, h0⟩
  · rw [h0] at h; cases h
  · right
    rcases createStore_cases ext spec cfg.config with ⟨e, hg, hcseq⟩ |
      ⟨db', hg, ⟨e, hm, hcseq⟩ | ⟨hm, hcseq⟩⟩
    · rw [hcseq] at hcs; cases hcs
    · rw [hcseq] at hcs; cases hcs
    · rw [hcseq] at hcs
      simp only [Except.ok.injEq] at hcs
      subst hcs
      exact ⟨spec, db', hdbs, hg, hm, by rw [hcseq], by rw [h0, hcseq]⟩

/-- If the server factory was invoked during `setUp` although the
configuration had a database spec, the database stage had resolved: the
store creation and migration returned a client. -/
theorem setUp_serverFactory_needs_db (ext : Extern) (env : Option String)
    (cfg : TestServerConfig) (s : LifecycleState) (opts : ServerOptions)
    (hmem : Event.serverFactoryCall opts ∈ (setUp ext env cfg s).trace)
    (spec : DbSpec) (hdbs : cfg.database = some spec) :
    ∃ db, (createStore ext spec cfg.config).2 = .ok db := by
  cases hcs : (createStore ext spec cfg.config).2 with
  | ok db => exact ⟨db, rfl⟩
  | error e =>
    have hdb : dbStage ext cfg s =
        ⟨s, (createStore ext spec cfg.config).1, .error e⟩ := by
      simp [dbStage, hdbs, hcs]
    rw [setUp_eq_of_db_error ext env cfg s e (by rw [hdb]), hdb] at hmem
    rcases createStore_cases ext spec cfg.config with ⟨e', hg, hcseq⟩ |
      ⟨db, hg, ⟨e', hm, hcseq⟩ | ⟨hm, hcseq⟩⟩ <;>
      rw [hcseq] at hmem <;> simp at hmem

/-- If the post-setup callback was invoked during `setUp`, a server
factory was configured, it had been invoked (its call is in the trace)
and it had resolved to exactly the server handle found in the callback's
context. -/
theorem setUp_afterSetup_needs_server (ext : Extern) (env : Option String)
    (cfg : TestServerConfig) (s : LifecycleState) (ctx : ServerContext)
    (hmem : Event.afterSetupCall ctx ∈ (setUp ext env cfg s).trace) :
    ∃ f opts, cfg.server = some f ∧
      Event.serverFactoryCall opts ∈ (setUp ext env cfg s).trace ∧
      f opts = .ok ctx.server := by
  rcases setUp_cases ext env cfg s with ⟨spec, e, hdbs, hcs, hsu⟩ | ⟨hok, hrest⟩
  · rw [hsu] at hmem
    rcases createStore_cases ext spec cfg.config with ⟨e', hg, hcseq⟩ |
      ⟨db, hg, ⟨e', hm, hcseq⟩ | ⟨hm, hcseq⟩⟩ <;>
      rw [hcseq] at hmem <;> simp at hmem
  · have hdtr : ∀ c, Event.afterSetupCall c ∉ (dbStage ext cfg s).trace := by
      rcases dbStage_ok_cases ext cfg s hok with ⟨_, h0⟩ | ⟨spec, db, _, _, _, _, h0⟩ <;>
        rw [h0] <;> simp
    rcases hrest with ⟨hsvn, hsu⟩ | ⟨f, hsv, ⟨e, hfe, hsu⟩ | ⟨h, hfo, hrest2⟩⟩
    · rw [hsu] at hmem
      exact absurd hmem (hdtr ctx)
    · rw [hsu] at hmem
      simp at hmem
      exact absurd hmem (hdtr ctx)
    · rcases hrest2 with ⟨hafn, hsu⟩ | ⟨cb, haf, ⟨hbn, hsu⟩ |
        ⟨p, hbp, ⟨e, hcbe, hsu⟩ | ⟨hcbo, hsu⟩⟩⟩ <;> rw [hsu] at hmem <;>
        simp at hmem
      · exact absurd hmem (hdtr ctx)
      · exact absurd hmem (hdtr ctx)
      · rcases hmem with hmem | hmem
        · exact absurd hmem (hdtr ctx)
        · subst hmem
          exact ⟨f, _, hsv, by rw [hsu]; simp, hfo⟩
      · rcases hmem with hmem | hmem
        · exact absurd hmem (hdtr ctx)
        · subst hmem
          exact ⟨f, _, hsv, by rw [hsu]; simp, hfo⟩

/-- The trace of any `setUp` run visits the stages in strictly
increasing order, so each external call happens at most once and in the
documented sequence. -/
theorem setUp_trace_chain (ext : Extern) (env : Option String)
    (cfg : TestServerConfig) (s : LifecycleState) :
    ((setUp ext env cfg s).trace).Chain' (fun a b => stage a < stage b) := by
  rcases setUp_cases ext env cfg s with ⟨spec, e, hdbs, hcs, hsu⟩ | ⟨hok, hrest⟩
  · rw [hsu]
    rcases createStore_cases ext spec cfg.config with ⟨e', hg, hcseq⟩ |
      ⟨db, hg, ⟨e', hm, hcseq⟩ | ⟨hm, hcseq⟩⟩ <;>
      rw [hcseq] <;> simp [stage]
  · rcases dbStage_ok_cases ext cfg s hok with ⟨_, h0⟩ |
      ⟨spec, db, _, _, _, _, h0⟩ <;>
      rcases hrest with ⟨hsvn, hsu⟩ | ⟨f, hsv, ⟨e, hfe, hsu⟩ | ⟨h, hfo,
        ⟨hafn, hsu⟩ | ⟨cb, haf, ⟨hbn, hsu⟩ |
          ⟨p, hbp, ⟨e, hcbe, hsu⟩ | ⟨hcbo, hsu⟩⟩⟩⟩⟩ <;>
      rw [hsu, h0] <;> simp [stage]

/-! ### Claim theorems -/

/-- C7: for every configuration without a `database` field, `setUp`
never invokes the database-store factory — no database client is created
(`getClientCall` never appears in the trace) and no migration runs
(`migrateCall` never appears) — and the static `database` field is left
exactly as it was (hence unset when it was unset). -/
theorem setUp_no_database_skips_store (ext : Extern) (env : Option String)
    (cfg : TestServerConfig) (s : LifecycleState) (hdb : cfg.database = none) :
    (∀ c n, Event.getClientCall c n ∉ (setUp ext env cfg s).trace) ∧
    (∀ db d, Event.migrateCall db d ∉ (setUp ext env cfg s).trace) ∧
    (setUp ext env cfg s).state.database = s.database := by
  have h0 := dbStage_db_none ext cfg s hdb
  have h1 := setUp_eq_of_db_ok ext env cfg s (by rw [h0])
  rw [h1, h0]
  rcases serverStage_cases env cfg s [] with ⟨_, hs⟩ | ⟨f, _, ⟨e, _, hs⟩ | ⟨h, _, hs⟩⟩ <;>
    rw [hs]
  · simp
  · simp
  · rcases afterStage_cases cfg (loggerOf cfg) { s with server := some h }
        ([] ++ [.createLoggerCall (loggerOf cfg),
          .serverFactoryCall (serverOptionsOf env cfg s.database)]) with
      ⟨_, ha⟩ | ⟨cb, _, ⟨_, ha⟩ | ⟨h', _, ⟨_, ha⟩ | ⟨p, _, ⟨e, _, ha⟩ | ⟨_, ha⟩⟩⟩⟩ <;>
    rw [ha] <;> simp

/-- C10: when the current configuration has no `database` field, the
server factory receives `optionalDatabase: undefined` (`none`), no
matter what the static `database` field holds (e.g. a stale handle from
a previous `setUp` in the same process): the value is determined solely
by the presence of the `database` field in the current configuration. -/
theorem setUp_optionalDatabase_none_without_db_field (ext : Extern)
    (env : Option String) (cfg : TestServerConfig) (s : LifecycleState)
    (opts : ServerOptions) (hdb : cfg.database = none)
    (hmem : Event.serverFactoryCall opts ∈ (setUp ext env cfg s).trace) :
    opts.optionalDatabase = none := by
  have h0 := dbStage_db_none ext cfg s hdb
  have h1 := setUp_eq_of_db_ok ext env cfg s (by rw [h0])
  rw [h1, h0] at hmem
  rcases serverStage_cases env cfg s [] with ⟨_, hs⟩ | ⟨f, _, ⟨e, _, hs⟩ | ⟨h, _, hs⟩⟩ <;>
    rw [hs] at hmem
  · simp at hmem
  · simp at hmem
    rw [hmem, serverOptionsOf, hdb]
    simp
  · rcases afterStage_cases cfg (loggerOf cfg) { s with server := some h }
        ([] ++ [.createLoggerCall (loggerOf cfg),
          .serverFactoryCall (serverOptionsOf env cfg s.database)]) with
      ⟨_, ha⟩ | ⟨cb, _, ⟨_, ha⟩ | ⟨h', _, ⟨_, ha⟩ | ⟨p, _, ⟨e, _, ha⟩ | ⟨_, ha⟩⟩⟩⟩ <;>
      rw [ha] at hmem <;> simp at hmem <;>
    · rw [hmem, serverOptionsOf, hdb]
      simp

/-- Any `serverFactoryCall` recorded by `setUp` carried exactly the
options object built from the environment, the configuration and the
static `database` field as left by the database stage. -/
theorem setUp_serverFactoryCall_opts (ext : Extern) (env : Option String)
    (cfg : TestServerConfig) (s : LifecycleState) (opts : ServerOptions)
    (hmem : Event.serverFactoryCall opts ∈ (setUp ext env cfg s).trace) :
    opts = serverOptionsOf env cfg (dbStage ext cfg s).state.database := by
  rcases setUp_cases ext env cfg s with ⟨spec, e, hdbs, hcs, hsu⟩ | ⟨hok, hrest⟩
  · rw [hsu] at hmem
    rcases createStore_cases ext spec cfg.config with ⟨e', hg, hcseq⟩ |
      ⟨db, hg, ⟨e', hm, hcseq⟩ | ⟨hm, hcseq⟩⟩ <;>
      rw [hcseq] at hmem <;> simp at hmem
  · have hdtr : ∀ o, Event.serverFactoryCall o ∉ (dbStage ext cfg s).trace := by
      rcases dbStage_ok_cases ext cfg s hok with ⟨_, h0⟩ |
        ⟨_, _, _, _, _, _, h0⟩ <;> rw [h0] <;> simp
    rcases hrest with ⟨hsvn, hsu⟩ | ⟨f, hsv, ⟨e, hfe, hsu⟩ | ⟨h, hfo,
        ⟨hafn, hsu⟩ | ⟨cb, haf, ⟨hbn, hsu⟩ |
          ⟨p, hbp, ⟨e, hcbe, hsu⟩ | ⟨hcbo, hsu⟩⟩⟩⟩⟩ <;>
      rw [hsu] at hmem <;> simp at hmem
    · exact absurd hmem (hdtr opts)
    all_goals rcases hmem with hmem | hmem
    all_goals first
      | exact absurd hmem (hdtr opts)
      | exact hmem

/-- C1: every `setUp` performs the three external stages strictly in
sequence: the trace of external calls visits the stages in strictly
increasing order (database-client creation, migration, logger
construction, server-factory call, post-setup callback — each at most
once); the server factory is only ever invoked after the database stage
(when a database spec is present) has resolved to a client; and the
post-setup callback is only ever invoked after the configured server
factory has resolved to the very server handle found in the context. -/
theorem setUp_stages_in_sequence (ext : Extern) (env : Option String)
    (cfg : TestServerConfig) (s : LifecycleState) :
    ((setUp ext env cfg s).trace).Chain' (fun a b => stage a < stage b) ∧
    (∀ opts, Event.serverFactoryCall opts ∈ (setUp ext env cfg s).trace →
      ∀ spec, cfg.database = some spec →
        ∃ db, (createStore ext spec cfg.config).2 = .ok db) ∧
    (∀ ctx, Event.afterSetupCall ctx ∈ (setUp ext env cfg s).trace →
      ∃ f opts, cfg.server = some f ∧
        Event.serverFactoryCall opts ∈ (setUp ext env cfg s).trace ∧
        f opts = .ok ctx.server) :=
  ⟨setUp_trace_chain ext env cfg s,
   fun opts hmem spec hdbs =>
     setUp_serverFactory_needs_db ext env cfg s opts hmem spec hdbs,
   fun ctx hmem => setUp_afterSetup_needs_server ext env cfg s ctx hmem⟩

/-- Witness for C1 at a concrete run: the full configuration with a
well-behaved external world. -/
theorem setUp_stages_in_sequence_witness :
    List.Chain' (fun a b => stage a < stage b)
      (setUp extOk none cfgFull initialState).trace ∧
    (∃ db, (createStore extOk ⟨"svc-db", "migrations"⟩ none).2 = .ok db) ∧
    (∃ f opts, cfgFull.server = some f ∧
      Event.serverFactoryCall opts ∈ (setUp extOk none cfgFull initialState).trace ∧
      f opts = .ok (⟨7, some 43210⟩ : ServerHandle)) := by
  obtain ⟨h1, h2, h3⟩ := setUp_stages_in_sequence extOk none cfgFull initialState
  refine ⟨h1, ?_, ?_⟩
  · exact h2 (serverOptionsOf none cfgFull (some ⟨1⟩)) (by decide)
      ⟨"svc-db", "migrations"⟩ rfl
  · exact h3 (mkCtx 43210 ⟨7, some 43210⟩ (loggerOf cfgFull) (some ⟨1⟩)) (by decide)

/-- C2 (amended): for every configuration without a `server` field,
`setUp` invokes no server factory, constructs no logger, invokes no
post-setup callback, and leaves the static `server` field untouched;
when that field was unset (fresh process), a subsequent `serverPort` or
`serverAddress` call fails — but with the `TypeError` of accessing the
unset `server` field, not with the dedicated
`Error("Test server not running")` condition, which is only raised when a
server handle exists with no bound address. -/
theorem setUp_no_server_skips_factory (ext : Extern) (env : Option String)
    (cfg : TestServerConfig) (s : LifecycleState) (hsv : cfg.server = none) :
    (∀ opts, Event.serverFactoryCall opts ∉ (setUp ext env cfg s).trace) ∧
    (∀ lg, Event.createLoggerCall lg ∉ (setUp ext env cfg s).trace) ∧
    (∀ ctx, Event.afterSetupCall ctx ∉ (setUp ext env cfg s).trace) ∧
    (setUp ext env cfg s).state.server = s.server ∧
    (s.server = none →
      serverPort (setUp ext env cfg s).state = .error (.undefinedAccess "server") ∧
      serverAddress (setUp ext env cfg s).state
        = .error (.undefinedAccess "server")) := by
  have key : (∀ opts, Event.serverFactoryCall opts ∉ (setUp ext env cfg s).trace) ∧
      (∀ lg, Event.createLoggerCall lg ∉ (setUp ext env cfg s).trace) ∧
      (∀ ctx, Event.afterSetupCall ctx ∉ (setUp ext env cfg s).trace) ∧
      (setUp ext env cfg s).state.server = s.server := by
    rcases setUp_cases ext env cfg s with ⟨spec, e, hdbs, hcs, hsu⟩ | ⟨hok, hrest⟩
    · rw [hsu]
      rcases createStore_cases ext spec cfg.config with ⟨e', hg, hcseq⟩ |
        ⟨db, hg, ⟨e', hm, hcseq⟩ | ⟨hm, hcseq⟩⟩ <;>
        rw [hcseq] <;> simp
    · rcases hrest with ⟨hsvn, hsu⟩ | ⟨f, hsv', hrest⟩
      · rw [hsu]
        rcases dbStage_ok_cases ext cfg s hok with ⟨_, h0⟩ |
          ⟨_, _, _, _, _, _, h0⟩ <;> rw [h0] <;> simp
      · rw [hsv] at hsv'; cases hsv'
  refine ⟨key.1, key.2.1, key.2.2.1, key.2.2.2, fun hnone => ?_⟩
  have hs : (setUp ext env cfg s).state.server = none := by
    rw [key.2.2.2, hnone]
  constructor <;> simp [serverAddress, serverPort, hs, Except.map]

/-- Witness for C2 at a concrete serverless run from a fresh process. -/
theorem setUp_no_server_skips_factory_witness :
    cfgDbOnly.server = none ∧ initialState.server = none ∧
    serverPort (setUp extOk none cfgDbOnly initialState).state
      = .error (.undefinedAccess "server") := by
  have h := setUp_no_server_skips_factory extOk none cfgDbOnly initialState rfl
  exact ⟨rfl, rfl, (h.2.2.2.2 rfl).1⟩

/-- C2 counterexample: the claim as stated says `serverPort` fails with
the dedicated not-running condition (the error raised when no address is
bound); after a serverless `setUp` in a fresh process it instead fails
with the `TypeError` of accessing the unset static `server` field. -/
theorem serverPort_after_serverless_setUp_not_notRunning :
    (setUp extOk none cfgDbOnly initialState).result = .ok () ∧
    serverPort (setUp extOk none cfgDbOnly initialState).state
      = .error (.undefinedAccess "server") ∧
    serverPort (setUp extOk none cfgDbOnly initialState).state
      ≠ .error .notRunning := by decide

/-- C3 (amended): whenever the configuration contains a server factory
*and* a post-setup callback, the database stage resolves, and the factory
resolves to a handle with a bound address, `setUp` builds the Server
Context — resolved address `http://127.0.0.1:<port>`, resolved port,
logger, server handle, database handle — and invokes the callback with
it. (Without a `server` field, the callback is never invoked.) -/
theorem setUp_invokes_afterSetup (ext : Extern) (env : Option String)
    (cfg : TestServerConfig) (s : LifecycleState)
    (f : ServerOptions → Except Err ServerHandle)
    (cb : ServerContext → Except Err Unit) (h : ServerHandle) (p : Nat)
    (hsv : cfg.server = some f) (haf : cfg.afterSetup = some cb)
    (hdb : (dbStage ext cfg s).result = .ok ())
    (hf : f (serverOptionsOf env cfg (dbStage ext cfg s).state.database) = .ok h)
    (hb : h.boundAddr = some p) :
    Event.afterSetupCall
        (mkCtx p h (loggerOf cfg) (dbStage ext cfg s).state.database)
      ∈ (setUp ext env cfg s).trace := by
  rcases setUp_cases ext env cfg s with ⟨spec, e, hdbs, hcs, hsu⟩ | ⟨hok, hrest⟩
  · have herr : (dbStage ext cfg s).result = .error e := by
      simp [dbStage, hdbs, hcs]
    rw [hdb] at herr; cases herr
  · rcases hrest with ⟨hsvn, hsu⟩ | ⟨f', hsv', hrest⟩
    · rw [hsvn] at hsv; cases hsv
    · rw [hsv] at hsv'
      injection hsv' with hff; subst hff
      rcases hrest with ⟨e, hfe, hsu⟩ | ⟨h', hfo, hrest⟩
      · rw [hfe] at hf; cases hf
      · rw [hfo] at hf
        injection hf with hhh; subst hhh
        rcases hrest with ⟨hafn, hsu⟩ | ⟨cb', haf', hrest⟩
        · rw [hafn] at haf; cases haf
        · rw [haf] at haf'
          injection haf' with hcc; subst hcc
          rcases hrest with ⟨hbn, hsu⟩ | ⟨p', hbp, hrest⟩
          · rw [hbn] at hb; cases hb
          · rw [hbp] at hb
            injection hb with hpp; subst hpp
            rcases hrest with ⟨e, hcbe, hsu⟩ | ⟨hcbo, hsu⟩ <;> rw [hsu] <;> simp

/-- Witness for C3 at a concrete run with all stages succeeding. -/
theorem setUp_invokes_afterSetup_witness :
    Event.afterSetupCall
        (mkCtx 43210 ⟨7, some 43210⟩ (loggerOf cfgFull) (some ⟨1⟩))
      ∈ (setUp extOk none cfgFull initialState).trace := by
  have h := setUp_invokes_afterSetup extOk none cfgFull initialState
    (okFactory 43210) (fun _ => .ok ()) ⟨7, some 43210⟩ 43210
    rfl rfl (by decide) (by decide) rfl
  exact h

/-- C3 counterexample: the claim quantifies over *every* configuration
containing an `afterSetup` callback, but a configuration with a callback
and no `server` field makes `setUp` complete without ever invoking the
callback (the callback step is nested inside the server branch). -/
theorem afterSetup_without_server_not_invoked :
    cfgAfterOnly.afterSetup.isSome = true ∧
    (setUp extOk none cfgAfterOnly initialState).result = .ok () ∧
    (setUp extOk none cfgAfterOnly initialState).trace = [] := by decide

/-- A server factory that always rejects. -/
def failFactory : ServerOptions → Except Err ServerHandle :=
  fun _ => .error (.external "boom")

/-- A configuration with a database spec and a rejecting server factory. -/
def cfgDbFailServer : TestServerConfig :=
  { appName := "svc"
    platformName := "backstage"
    database := some ⟨"svc-db", "migrations"⟩
    server := some failFactory }

/-- A lifecycle state left over by a previous cycle: no server, but a
stale database handle still stored. -/
def staleState : LifecycleState := { server := none, database := some ⟨99⟩ }

/-- A successful `setUp` with a configured server factory stored the
handle the factory resolved to. -/
theorem setUp_ok_server_handle (ext : Extern) (env : Option String)
    (cfg : TestServerConfig) (s : LifecycleState)
    (f : ServerOptions → Except Err ServerHandle)
    (hsv : cfg.server = some f)
    (hok : (setUp ext env cfg s).result = .ok ()) :
    ∃ h, (setUp ext env cfg s).state.server = some h ∧
      f (serverOptionsOf env cfg (dbStage ext cfg s).state.database) = .ok h := by
  rcases setUp_cases ext env cfg s with ⟨spec, e, hdbs, hcs, hsu⟩ | ⟨hok2, hrest⟩
  · rw [hsu] at hok; simp at hok
  · rcases hrest with ⟨hsvn, hsu⟩ | ⟨f', hsv', hrest⟩
    · rw [hsvn] at hsv; cases hsv
    · rw [hsv] at hsv'
      injection hsv' with hff; subst hff
      rcases hrest with ⟨e, hfe, hsu⟩ | ⟨h, hfo, hrest⟩
      · rw [hsu] at hok; simp at hok
      · rcases hrest with ⟨hafn, hsu⟩ | ⟨cb, haf, ⟨hbn, hsu⟩ |
          ⟨p, hbp, ⟨e, hcbe, hsu⟩ | ⟨hcbo, hsu⟩⟩⟩
        · exact ⟨h, by rw [hsu], hfo⟩
        · rw [hsu] at hok; simp at hok
        · rw [hsu] at hok; simp at hok
        · exact ⟨h, by rw [hsu], hfo⟩

/-- Exhaustive characterization of a `destroy` call on a state holding a
server handle. -/
theorem destroy_cases (ext' : Extern) (s : LifecycleState) (h : ServerHandle)
    (hs : s.server = some h) :
    (s.database = none ∧
      destroy ext' s =
        ⟨{ s with server := some { h with boundAddr := none } },
         [.serverCloseCall h.sid], .ok ()⟩) ∨
    (∃ db, s.database = some db ∧
      ((∃ e, ext'.dbDestroy db = .error e ∧
        destroy ext' s =
          ⟨{ s with server := some { h with boundAddr := none } },
           [.serverCloseCall h.sid, .dbDestroyCall db], .error e⟩) ∨
       (ext'.dbDestroy db = .ok () ∧
        destroy ext' s =
          ⟨{ s with server := some { h with boundAddr := none } },
           [.serverCloseCall h.sid, .dbDestroyCall db], .ok ()⟩))) := by
  cases hdb : s.database with
  | none => exact .inl ⟨rfl, by simp [destroy, hs, hdb]⟩
  | some db =>
    refine .inr ⟨db, rfl, ?_⟩
    cases hdd : ext'.dbDestroy db with
    | error e => exact .inl ⟨e, rfl, by simp [destroy, hs, hdb, hdd]⟩
    | ok u => exact .inr ⟨rfl, by simp [destroy, hs, hdb, hdd]⟩

/-- C4: any rejection from the database factory, the server factory, or
the post-setup callback propagates verbatim (the same error value, no
wrapping) to the `setUp` caller, with no retry and no rollback.  In
particular: a database-stage rejection leaves the state untouched and no
server factory is invoked; a server-factory rejection leaves the
database handle created by the database stage stored in the lifecycle
state and open (no database destroy is ever called during `setUp`), the
factory having been called exactly once; a callback rejection
propagates verbatim as well. -/
theorem setUp_failure_propagation (ext : Extern) (env : Option String)
    (cfg : TestServerConfig) (s : LifecycleState) :
    (∀ spec e, cfg.database = some spec →
      (createStore ext spec cfg.config).2 = .error e →
      (setUp ext env cfg s).result = .error e ∧
      (setUp ext env cfg s).state = s ∧
      (∀ opts, Event.serverFactoryCall opts ∉ (setUp ext env cfg s).trace) ∧
      (∀ db, Event.dbDestroyCall db ∉ (setUp ext env cfg s).trace)) ∧
    (∀ f e, cfg.server = some f →
      (dbStage ext cfg s).result = .ok () →
      f (serverOptionsOf env cfg (dbStage ext cfg s).state.database) = .error e →
      (setUp ext env cfg s).result = .error e ∧
      (setUp ext env cfg s).state.database = (dbStage ext cfg s).state.database ∧
      (∀ spec db, cfg.database = some spec →
        (createStore ext spec cfg.config).2 = .ok db →
        (setUp ext env cfg s).state.database = some db) ∧
      (∀ db, Event.dbDestroyCall db ∉ (setUp ext env cfg s).trace) ∧
      (setUp ext env cfg s).trace =
        (dbStage ext cfg s).trace ++
          [.createLoggerCall (loggerOf cfg),
           .serverFactoryCall
             (serverOptionsOf env cfg (dbStage ext cfg s).state.database)] ∧
      (∀ o, Event.serverFactoryCall o ∉ (dbStage ext cfg s).trace)) ∧
    (∀ f cb h p e, cfg.server = some f → cfg.afterSetup = some cb →
      (dbStage ext cfg s).result = .ok () →
      f (serverOptionsOf env cfg (dbStage ext cfg s).state.database) = .ok h →
      h.boundAddr = some p →
      cb (mkCtx p h (loggerOf cfg) (dbStage ext cfg s).state.database)
        = .error e →
      (setUp ext env cfg s).result = .error e ∧
      (∀ db, Event.dbDestroyCall db ∉ (setUp ext env cfg s).trace)) := by
  refine ⟨?_, ?_, ?_⟩
  · intro spec e hdbs hcs
    have hdb : dbStage ext cfg s =
        ⟨s, (createStore ext spec cfg.config).1, .error e⟩ := by
      simp [dbStage, hdbs, hcs]
    rw [setUp_eq_of_db_error ext env cfg s e (by rw [hdb]), hdb]
    rcases createStore_cases ext spec cfg.config with ⟨e', hg, hcseq⟩ |
      ⟨db, hg, ⟨e', hm, hcseq⟩ | ⟨hm, hcseq⟩⟩ <;> rw [hcseq] <;> simp
  · intro f e hsv hok herr
    have hdtr : ∀ x, x ∈ (dbStage ext cfg s).trace →
        (∀ db, x ≠ Event.dbDestroyCall db) ∧
        (∀ o, x ≠ Event.serverFactoryCall o) := by
      rcases dbStage_ok_cases ext cfg s hok with ⟨_, h0⟩ |
        ⟨_, _, _, _, _, _, h0⟩ <;> rw [h0] <;> intro x hx <;> simp at hx
      · rcases hx with hx | hx <;> subst hx <;> simp
    rcases setUp_cases ext env cfg s with ⟨spec, e', hdbs, hcs, hsu⟩ | ⟨hok2, hrest⟩
    · have : (dbStage ext cfg s).result = .error e' := by
        simp [dbStage, hdbs, hcs]
      rw [hok] at this; cases this
    · rcases hrest with ⟨hsvn, hsu⟩ | ⟨f', hsv', hrest⟩
      · rw [hsvn] at hsv; cases hsv
      · rw [hsv] at hsv'
        injection hsv' with hff; subst hff
        rcases hrest with ⟨e', hfe, hsu⟩ | ⟨h, hfo, hrest⟩
        · rw [hfe] at herr
          injection herr with hee; subst hee
          rw [hsu]
          refine ⟨rfl, rfl, ?_, ?_, rfl, ?_⟩
          · intro spec db hdbs hcsok
            rcases dbStage_ok_cases ext cfg s hok with ⟨hn, h0⟩ |
              ⟨spec', db', hdbs', hg, hm, hcs', h0⟩
            · rw [hn] at hdbs; cases hdbs
            · rw [hdbs'] at hdbs
              injection hdbs with hss; subst hss
              rw [hcs'] at hcsok
              injection hcsok with hdd; subst hdd
              rw [h0]
          · intro db
            simp only [RunResult.trace, List.mem_append]
            rintro (hx | hx)
            · exact absurd rfl ((hdtr _ hx).1 db)
            · simp at hx
          · intro o ho
            exact absurd rfl ((hdtr _ ho).2 o)
        · rw [hfo] at herr; cases herr
  · intro f cb h p e hsv haf hok hfok hbp hcberr
    rcases setUp_cases ext env cfg s with ⟨spec, e', hdbs, hcs, hsu⟩ | ⟨hok2, hrest⟩
    · have : (dbStage ext cfg s).result = .error e' := by
        simp [dbStage, hdbs, hcs]
      rw [hok] at this; cases this
    · have hdtr : ∀ x, x ∈ (dbStage ext cfg s).trace →
          ∀ db, x ≠ Event.dbDestroyCall db := by
        rcases dbStage_ok_cases ext cfg s hok with ⟨_, h0⟩ |
          ⟨_, _, _, _, _, _, h0⟩ <;> rw [h0] <;> intro x hx <;> simp at hx
        · rcases hx with hx | hx <;> subst hx <;> simp
      rcases hrest with ⟨hsvn, hsu⟩ | ⟨f', hsv', hrest⟩
      · rw [hsvn] at hsv; cases hsv
      · rw [hsv] at hsv'
        injection hsv' with hff; subst hff
        rcases hrest with ⟨e', hfe, hsu⟩ | ⟨h', hfo, hrest⟩
        · rw [hfe] at hfok; cases hfok
        · rw [hfo] at hfok
          injection hfok with hhh; subst hhh
          rcases hrest with ⟨hafn, hsu⟩ | ⟨cb', haf', hrest⟩
          · rw [hafn] at haf; cases haf
          · rw [haf] at haf'
            injection haf' with hcc; subst hcc
            rcases hrest with ⟨hbn, hsu⟩ | ⟨p', hbp', hrest⟩
            · rw [hbn] at hbp; cases hbp
            · rw [hbp'] at hbp
              injection hbp with hpp; subst hpp
              rcases hrest with ⟨e', hcbe, hsu⟩ | ⟨hcbo, hsu⟩
              · rw [hcbe] at hcberr
                injection hcberr with hee; subst hee
                rw [hsu]
                refine ⟨rfl, ?_⟩
                intro db
                simp only [RunResult.trace, List.mem_append]
                rintro (hx | hx)
                · exact absurd rfl (hdtr _ hx db)
                · simp at hx
              · rw [hcbo] at hcberr; cases hcberr

/-- Witness for C4 at a concrete run whose server factory rejects after
the database stage succeeded: the rejection surfaces verbatim and the
database handle is still stored, with no database destroy in the trace. -/
theorem setUp_failure_propagation_witness :
    (setUp extOk none cfgDbFailServer initialState).result
      = .error (.external "boom") ∧
    (setUp extOk none cfgDbFailServer initialState).state.database
      = some ⟨1⟩ := by
  have h := (setUp_failure_propagation extOk none cfgDbFailServer initialState).2.1
    failFactory (.external "boom") rfl (by decide) (by decide)
  exact ⟨h.1, h.2.2.1 ⟨"svc-db", "migrations"⟩ ⟨1⟩ rfl (by decide)⟩

/-- C5 (amended): for every `destroy()` call made after a successful
`setUp` whose configuration included a server factory: the server handle
is closed first (the close call heads the trace and the address is
unbound afterwards, so a later `serverPort` fails with the dedicated
not-running error); then, iff a database handle is stored, its destroy
operation is called exactly once; when no database handle is stored no
database call is made and `destroy` resolves without error. -/
theorem destroy_after_setUp (ext ext' : Extern) (env : Option String)
    (cfg : TestServerConfig) (s : LifecycleState)
    (f : ServerOptions → Except Err ServerHandle)
    (hsv : cfg.server = some f)
    (hok : (setUp ext env cfg s).result = .ok ()) :
    ∃ h, (setUp ext env cfg s).state.server = some h ∧
      (destroy ext' (setUp ext env cfg s).state).state.server
        = some { h with boundAddr := none } ∧
      serverPort (destroy ext' (setUp ext env cfg s).state).state
        = .error .notRunning ∧
      (∀ db, (setUp ext env cfg s).state.database = some db →
        (destroy ext' (setUp ext env cfg s).state).trace
          = [.serverCloseCall h.sid, .dbDestroyCall db]) ∧
      ((setUp ext env cfg s).state.database = none →
        (destroy ext' (setUp ext env cfg s).state).trace
          = [.serverCloseCall h.sid] ∧
        (destroy ext' (setUp ext env cfg s).state).result = .ok ()) := by
  obtain ⟨h, hs, hf⟩ := setUp_ok_server_handle ext env cfg s f hsv hok
  refine ⟨h, hs, ?_⟩
  rcases destroy_cases ext' _ h hs with ⟨hdbn, hd⟩ |
    ⟨db, hdbs, ⟨e, hdd, hd⟩ | ⟨hdd, hd⟩⟩ <;> rw [hd]
  · refine ⟨rfl, by simp [serverPort], ?_, fun _ => ⟨rfl, rfl⟩⟩
    intro db hdb
    rw [hdbn] at hdb; cases hdb
  · refine ⟨rfl, by simp [serverPort], ?_, ?_⟩
    · intro db' hdb
      rw [hdbs] at hdb
      injection hdb with hdd'; subst hdd'
      rfl
    · intro hdb
      rw [hdbs] at hdb; cases hdb
  · refine ⟨rfl, by simp [serverPort], ?_, ?_⟩
    · intro db' hdb
      rw [hdbs] at hdb
      injection hdb with hdd'; subst hdd'
      rfl
    · intro hdb
      rw [hdbs] at hdb; cases hdb

/-- Witness for C5 at a concrete full run: the close call heads the
trace, the database destroy follows exactly once, and `serverPort`
afterwards fails with the dedicated not-running error. -/
theorem destroy_after_setUp_witness :
    (destroy extOk (setUp extOk none cfgFull initialState).state).trace
      = [.serverCloseCall 7, .dbDestroyCall ⟨1⟩] ∧
    serverPort (destroy extOk (setUp extOk none cfgFull initialState).state).state
      = .error .notRunning := by
  obtain ⟨h, hs, hsrv, hprt, hsome, hnone⟩ :=
    destroy_after_setUp extOk extOk none cfgFull initialState
      (okFactory 43210) rfl (by decide)
  have hsv : (setUp extOk none cfgFull initialState).state.server
      = some ⟨7, some 43210⟩ := by decide
  rw [hsv] at hs
  injection hs with hh
  subst hh
  exact ⟨hsome ⟨1⟩ (by decide), hprt⟩

/-- C5 counterexample: the claim quantifies over *every* destroy after a
successful `setUp`; after a successful `setUp` configured with a
database but no server, `destroy` throws the `TypeError` from the unset
`server` field before reaching the database, so the stored database
handle's destroy is called zero times although a handle exists. -/
theorem destroy_after_serverless_setUp_fails :
    (setUp extOk none cfgDbOnly initialState).result = .ok () ∧
    (setUp extOk none cfgDbOnly initialState).state.database = some ⟨1⟩ ∧
    destroy extOk (setUp extOk none cfgDbOnly initialState).state
      = ⟨(setUp extOk none cfgDbOnly initialState).state, [],
         .error (.undefinedAccess "server")⟩ := by decide

/-- C6 (amended): the lifecycle fields start empty at process start and
are filled by `setUp`; `destroy` closes the underlying handles — the
server address becomes unbound and the database destroy is invoked — but
does not clear the fields: after `destroy` completes they still
reference the previous (now closed) handles. -/
theorem lifecycle_fields_not_cleared (ext' : Extern) (s : LifecycleState)
    (h : ServerHandle) :
    initialState.server = none ∧ initialState.database = none ∧
    (s.server = some h →
      (destroy ext' s).state.server = some { h with boundAddr := none } ∧
      (destroy ext' s).state.database = s.database) := by
  refine ⟨rfl, rfl, fun hs => ?_⟩
  rcases destroy_cases ext' s h hs with ⟨hdbn, hd⟩ |
    ⟨db, hdbs, ⟨e, hdd, hd⟩ | ⟨hdd, hd⟩⟩ <;> rw [hd] <;> exact ⟨rfl, rfl⟩

/-- Witness for C6 applied at the state left by a concrete full run. -/
theorem lifecycle_fields_not_cleared_witness :
    initialState.server = none ∧
    (destroy extOk (setUp extOk none cfgFull initialState).state).state.server
      = some ⟨7, none⟩ := by
  have hth := lifecycle_fields_not_cleared extOk
    (setUp extOk none cfgFull initialState).state ⟨7, some 43210⟩
  refine ⟨hth.1, ?_⟩
  have := (hth.2.2 (by decide)).1
  exact this

/-- C6 counterexample: after `destroy()` completes, the lifecycle fields
*still hold* the previous handles — the database field holds exactly the
handle `setUp` stored, and the server field still references the closed
server object — contradicting "the fields no longer hold the previous
handles". -/
theorem destroy_does_not_clear_fields :
    (setUp extOk none cfgFull initialState).state.database = some ⟨1⟩ ∧
    (destroy extOk (setUp extOk none cfgFull initialState).state).result
      = .ok () ∧
    (destroy extOk (setUp extOk none cfgFull initialState).state).state.database
      = some ⟨1⟩ ∧
    (destroy extOk (setUp extOk none cfgFull initialState).state).state.server
      = some ⟨7, none⟩ := by decide

/-- Witness for C7 at a concrete run without a `database` field. -/
theorem setUp_no_database_skips_store_witness :
    cfgServerOnly.database = none ∧
    (setUp extOk none cfgServerOnly initialState).state.database = none := by
  have h := setUp_no_database_skips_store extOk none cfgServerOnly initialState rfl
  exact ⟨rfl, by rw [h.2.2]; rfl⟩

/-- C8: the port handed to the server factory is always the one computed
from the port-override environment variable: its decimal value when the
variable is set (so `"4321"` makes the factory receive port `4321`), and
`0` — requesting an ephemeral port from the networking layer — when it
is absent. -/
theorem setUp_port_override (ext : Extern) (env : Option String)
    (cfg : TestServerConfig) (s : LifecycleState) (opts : ServerOptions)
    (hmem : Event.serverFactoryCall opts ∈ (setUp ext env cfg s).trace) :
    opts.port = portOf env ∧ portOf none = 0 ∧
    (∀ str, portOf (some str) = parseDec str) ∧
    portOf (some "4321") = 4321 := by
  have h := setUp_serverFactoryCall_opts ext env cfg s opts hmem
  subst h
  exact ⟨rfl, rfl, fun _ => rfl, by decide⟩

/-- Witness for C8 at a concrete run with the override set to "4321". -/
theorem setUp_port_override_witness :
    Event.serverFactoryCall (serverOptionsOf (some "4321") cfgServerOnly none)
      ∈ (setUp extOk (some "4321") cfgServerOnly initialState).trace ∧
    (serverOptionsOf (some "4321") cfgServerOnly none).port = 4321 := by
  have hmem : Event.serverFactoryCall (serverOptionsOf (some "4321") cfgServerOnly none)
      ∈ (setUp extOk (some "4321") cfgServerOnly initialState).trace := by decide
  have h := setUp_port_override extOk (some "4321") cfgServerOnly initialState _ hmem
  exact ⟨hmem, by rw [h.1]; decide⟩

/-- C9: after a successful `setUp` with a server factory and no port
override, provided the factory resolves to handles with a bound positive
port (what a networking layer guarantees when an ephemeral port is
requested), `serverPort()` returns that positive port and
`serverAddress()` returns exactly `"http://127.0.0.1:" ++ port`. -/
theorem serverAddress_after_setUp (ext : Extern) (cfg : TestServerConfig)
    (s : LifecycleState) (f : ServerOptions → Except Err ServerHandle)
    (hsv : cfg.server = some f)
    (hok : (setUp ext none cfg s).result = .ok ())
    (hbind : ∀ o hnd, f o = .ok hnd → ∃ p, hnd.boundAddr = some p ∧ 0 < p) :
    ∃ p, 0 < p ∧
      serverPort (setUp ext none cfg s).state = .ok p ∧
      serverAddress (setUp ext none cfg s).state
        = .ok ("http://127.0.0.1:" ++ toString p) := by
  obtain ⟨h, hs, hf⟩ := setUp_ok_server_handle ext none cfg s f hsv hok
  obtain ⟨p, hb, hp⟩ := hbind _ h hf
  exact ⟨p, hp, by simp [serverPort, hs, hb],
    by simp [serverAddress, serverPort, hs, hb, Except.map]⟩

/-- Witness for C9 at a concrete serve-only run with an ephemeral port. -/
theorem serverAddress_after_setUp_witness :
    ∃ p, 0 < p ∧
      serverPort (setUp extOk none cfgServerOnly initialState).state = .ok p ∧
      serverAddress (setUp extOk none cfgServerOnly initialState).state
        = .ok ("http://127.0.0.1:" ++ toString p) := by
  refine serverAddress_after_setUp extOk cfgServerOnly initialState
    (okFactory 43210) rfl (by decide) ?_
  intro o hnd hf
  simp only [okFactory, Except.ok.injEq] at hf
  subst hf
  by_cases ho : o.port = 0
  · exact ⟨43210, by simp [ho], by decide⟩
  · exact ⟨o.port, by simp [ho], Nat.pos_of_ne_zero ho⟩

/-- Witness for C10: a current configuration without a `database` field
passes `optionalDatabase: undefined` to the factory even though a stale
handle from a previous cycle is still stored in the lifecycle state. -/
theorem setUp_optionalDatabase_none_witness :
    staleState.database = some ⟨99⟩ ∧
    (serverOptionsOf none cfgServerOnly (some ⟨99⟩)).optionalDatabase = none := by
  refine ⟨rfl, ?_⟩
  exact setUp_optionalDatabase_none_without_db_field extOk none cfgServerOnly
    staleState (serverOptionsOf none cfgServerOnly (some ⟨99⟩)) rfl (by decide)

end BackstageIt
